import Mathlib

/-
Verification development for the Pulse Studio DAW AI command pipeline.

Shallow embedding of:
  * `classifyTask` / `MODEL_CONFIGS` / `getModelForTask`   (lib/ai/backboard.ts, newer version)
  * `sendToModel`'s retry wrapper, JSON-parse fallback and default system prompt
  * `hashContext` / `getAssistant` assistant-and-thread cache
  * `mockBackboardResponse` (both the older and the newer version)
  * ChatPanel.handleSend's batch / single-command result handling
  * the (spec-modelled) "current" symbolic-id resolution of the batch executor

JavaScript strings are modelled as Lean `String` / `List Char`; the embedding of
`toLowerCase`, `\d`, `\s`, `\w` covers the ASCII range actually exercised by the
code.  JS regexes are compiled to a small Brzozowski-derivative regex engine;
`re.test(s)` (unanchored search) is `reTest`, `/^...$/` is `fullMatch` and
`/^.../` is `matchFrom`.
-/

/-! ### Character and string utilities (JS semantics, ASCII range) -/

/-- ASCII lower-casing of one character, mirroring what
`String.prototype.toLowerCase()` does on the ASCII inputs this code handles. -/
def jsToLower (c : Char) : Char :=
  if c == 'A' then 'a' else if c == 'B' then 'b' else if c == 'C' then 'c'
  else if c == 'D' then 'd' else if c == 'E' then 'e' else if c == 'F' then 'f'
  else if c == 'G' then 'g' else if c == 'H' then 'h' else if c == 'I' then 'i'
  else if c == 'J' then 'j' else if c == 'K' then 'k' else if c == 'L' then 'l'
  else if c == 'M' then 'm' else if c == 'N' then 'n' else if c == 'O' then 'o'
  else if c == 'P' then 'p' else if c == 'Q' then 'q' else if c == 'R' then 'r'
  else if c == 'S' then 's' else if c == 'T' then 't' else if c == 'U' then 'u'
  else if c == 'V' then 'v' else if c == 'W' then 'w' else if c == 'X' then 'x'
  else if c == 'Y' then 'y' else if c == 'Z' then 'z' else c

/-- ASCII upper-casing of one character (`String.prototype.toUpperCase()`). -/
def jsToUpper (c : Char) : Char :=
  if c == 'a' then 'A' else if c == 'b' then 'B' else if c == 'c' then 'C'
  else if c == 'd' then 'D' else if c == 'e' then 'E' else if c == 'f' then 'F'
  else if c == 'g' then 'G' else if c == 'h' then 'H' else if c == 'i' then 'I'
  else if c == 'j' then 'J' else if c == 'k' then 'K' else if c == 'l' then 'L'
  else if c == 'm' then 'M' else if c == 'n' then 'N' else if c == 'o' then 'O'
  else if c == 'p' then 'P' else if c == 'q' then 'Q' else if c == 'r' then 'R'
  else if c == 's' then 'S' else if c == 't' then 'T' else if c == 'u' then 'U'
  else if c == 'v' then 'V' else if c == 'w' then 'W' else if c == 'x' then 'X'
  else if c == 'y' then 'Y' else if c == 'z' then 'Z' else c

/-- The string `text.toLowerCase()` as a list of characters. -/
def jsLower (s : String) : List Char := s.toList.map jsToLower

/-- JS `\s` / `String.prototype.trim` whitespace, restricted to the ASCII
whitespace characters (space, tab, LF, VT, FF, CR). -/
def isJsSpace (c : Char) : Bool :=
  c == ' ' || c == '\t' || c == '\n' || c == '\x0b' || c == '\x0c' || c == '\r'

/-- The double-quote character, written via its code point so that no
character literal in this file contains a quote. -/
def quoteC : Char := Char.ofNat 34

/-- Whether `needle` is a prefix of `hay`. -/
def isPrefixL : List Char → List Char → Bool
  | [], _ => true
  | _ :: _, [] => false
  | a :: as, b :: bs => a == b && isPrefixL as bs

/-- Whether `hay` contains `needle` as a contiguous substring
(JS `String.prototype.includes`). -/
def containsL (needle : List Char) : List Char → Bool
  | [] => isPrefixL needle []
  | hay@(_ :: rest) => isPrefixL needle hay || containsL needle rest

/-- JS `hay.includes(needle)` on a character list and a string literal. -/
def sContainsL (hay : List Char) (needle : String) : Bool :=
  containsL needle.toList hay

/-- JS `hay.includes(needle)` on strings (used for `error.message.includes('401')`). -/
def sContains (hay needle : String) : Bool :=
  containsL needle.toList hay.toList

/-- The first maximal run of decimal digits in a string, i.e. the value of
`text.match(/\d+/)?.[0]`. -/
def firstDigitRun : List Char → Option (List Char)
  | [] => none
  | c :: cs => if c.isDigit then some (c :: cs.takeWhile Char.isDigit)
               else firstDigitRun cs

/-- JS `parseInt` on a non-empty all-digit string. -/
def digitsToNat (ds : List Char) : Nat :=
  ds.foldl (fun acc c => acc * 10 + (c.toNat - 48)) 0

/-- Capitalise the first character:
`s.charAt(0).toUpperCase() + s.slice(1)`. -/
def capFirst (s : String) : String :=
  match s.toList with
  | [] => ""
  | c :: cs => String.mk (jsToUpper c :: cs)

/-! ### A small regex engine (Brzozowski derivatives)

The JS regexes in `classifyTask` use only literals, character classes
(`\d`, `\s`, `\w`), grouping, alternation, `?`, `+`, `*` and the anchors
`^` / `$`, so this fragment is enough to embed every pattern verbatim. -/

/-- Regular expressions over characters; `cls p` is a character class. -/
inductive Re where
  | emp : Re
  | eps : Re
  | cls (p : Char → Bool) : Re
  | alt (a b : Re) : Re
  | cat (a b : Re) : Re
  | star (a : Re) : Re

/-- Does `r` accept the empty string? -/
def nullable : Re → Bool
  | .emp => false
  | .eps => true
  | .cls _ => false
  | .alt a b => nullable a || nullable b
  | .cat a b => nullable a && nullable b
  | .star _ => true

/-- Brzozowski derivative of `r` by the character `c`. -/
def rderiv (r : Re) (c : Char) : Re :=
  match r with
  | .emp => .emp
  | .eps => .emp
  | .cls p => if p c then .eps else .emp
  | .alt a b => .alt (rderiv a c) (rderiv b c)
  | .cat a b =>
    if nullable a then .alt (.cat (rderiv a c) b) (rderiv b c)
    else .cat (rderiv a c) b
  | .star a => .cat (rderiv a c) (.star a)

/-- Does `r` match some (possibly empty) prefix of `l`?
This is the JS test of a `/^.../`-anchored regex. -/
def matchFrom (r : Re) : List Char → Bool
  | [] => nullable r
  | c :: cs => nullable r || matchFrom (rderiv r c) cs

/-- The test `r.test(l)`: does `r` match somewhere inside `l` (unanchored search)? -/
def reTest (r : Re) : List Char → Bool
  | [] => matchFrom r []
  | c :: cs => matchFrom r (c :: cs) || reTest r cs

/-- Does `r` match all of `l`?  This is the JS test of a `/^...$/` regex. -/
def fullMatch (r : Re) (l : List Char) : Bool :=
  nullable (l.foldl rderiv r)

/-- Single literal character. -/
def rchr (c : Char) : Re := Re.cls (fun x => x == c)

/-- Literal string. -/
def rstr (s : String) : Re :=
  s.toList.foldr (fun c r => Re.cat (rchr c) r) Re.eps

/-- The regex `r?`. -/
def ropt (r : Re) : Re := Re.alt r Re.eps

/-- The regex `r+`. -/
def rplus (r : Re) : Re := Re.cat r (Re.star r)

/-- Alternation of a list of regexes. -/
def altL : List Re → Re
  | [] => Re.emp
  | [r] => r
  | r :: rs => Re.alt r (altL rs)

/-- Concatenation of a list of regexes. -/
def rcat : List Re → Re
  | [] => Re.eps
  | [r] => r
  | r :: rs => Re.cat r (rcat rs)

/-- The regex `\s+`. -/
def wsP : Re := rplus (Re.cls isJsSpace)

/-- The regex `\s*`. -/
def wsS : Re := Re.star (Re.cls isJsSpace)

/-- The regex `\w+` (`[A-Za-z0-9_]+`). -/
def wordP : Re := rplus (Re.cls (fun c => c.isAlphanum || c == '_'))

/-- The regex `\d+`. -/
def digitsRe : Re := rplus (Re.cls Char.isDigit)

/-- The regex `(the\s+)?`. -/
def theOpt : Re := ropt (rcat [rstr "the", wsP])

/-- The regex `(a\s+)?`. -/
def aOpt : Re := ropt (rcat [rstr "a", wsP])

/-- The regex `(\w+\s+)?`. -/
def wordOpt : Re := ropt (rcat [wordP, wsP])

/-! ### Task classification (`classifyTask`, backboard.ts lines 190-337) -/

/-- Task types for intelligent model routing. -/
inductive TaskType where
  | creative
  | technical
  | analytical
  | fallback
deriving DecidableEq

/-- The `analyticalPatterns` array, each entry compiled to its JS `test`. -/
def analyticalPatterns : List (List Char → Bool) :=
  [ reTest (rstr "explain"),
    reTest (rcat [rstr "what", wsP, altL [rstr "is", rstr "are", rstr "does"]]),
    reTest (rcat [rstr "how", wsP, altL [rstr "do", rstr "does", rstr "can", rstr "should"]]),
    reTest (rcat [rstr "why", wsP, altL [rstr "is", rstr "are", rstr "does", rstr "do"]]),
    reTest (rcat [rstr "tell", wsP, rstr "me", wsP, rstr "about"]),
    reTest (rstr "analyze"),
    reTest (rstr "analyse"),
    reTest (rstr "feedback"),
    reTest (rstr "review"),
    reTest (rstr "critique"),
    reTest (rstr "improve"),
    reTest (rstr "better"),
    reTest (rstr "theory"),
    reTest (rstr "teach"),
    reTest (rstr "learn"),
    reTest (rstr "understand"),
    reTest (rcat [rstr "difference", wsP, rstr "between"]),
    reTest (rstr "compare"),
    reTest (rcat [rstr "help", wsP, rstr "me", wsP, rstr "understand"]) ]

/-- The `creativePatterns` array, each entry compiled to its JS `test`. -/
def creativePatterns : List (List Char → Bool) :=
  [ reTest (rcat [rstr "make", wsP, aOpt, wordOpt,
      altL [rstr "beat", rstr "melody", rstr "chord", rstr "bass", rstr "pattern",
            rstr "music", rstr "song", rstr "track"]]),
    reTest (rcat [rstr "create", wsP, aOpt, wordOpt,
      altL [rstr "beat", rstr "melody", rstr "chord", rstr "bass", rstr "pattern",
            rstr "music", rstr "song", rstr "track"]]),
    reTest (rcat [rstr "generate", wsP, aOpt, wordOpt,
      altL [rstr "beat", rstr "melody", rstr "music", rstr "pattern"]]),
    reTest (rcat [rstr "write", wsP, aOpt, wordOpt,
      altL [rstr "melody", rstr "chord", rstr "bass", rstr "song"]]),
    reTest (rcat [rstr "compose", wsP, aOpt, wordOpt,
      ropt (altL [rstr "melody", rstr "beat", rstr "song", rstr "piece"])]),
    reTest (rcat [rstr "add", wsP, aOpt, wordOpt,
      altL [rstr "melody", rstr "chord", rstr "piano", rstr "bass", rstr "lead",
            rstr "pad", rstr "synth"]]),
    reTest (altL [rcat [rstr "hip", wsS, rstr "hop"], rstr "trap", rstr "house",
      rstr "edm", rstr "jazz", rstr "funk", rstr "rock", rstr "pop", rstr "lofi",
      rstr "rap"]),
    reTest (altL [rcat [rstr "boom", wsS, rstr "bap"], rstr "drill", rstr "phonk",
      rstr "reggaeton", rstr "r&b", rstr "soul"]),
    reTest (altL [rstr "catchy", rstr "groovy", rstr "chill", rstr "energetic",
      rstr "dark", rstr "bright", rstr "sad", rstr "happy", rstr "upbeat"]),
    reTest (rstr "suggest"),
    reTest (altL [rstr "improvise", rstr "freestyle", rstr "jam"]),
    reTest (rcat [rstr "piano", wsP, altL [rstr "melody", rstr "part", rstr "line"]]),
    reTest (rcat [rstr "drum", wsP, altL [rstr "beat", rstr "pattern", rstr "loop"]]),
    reTest (rcat [rstr "bass", wsP, altL [rstr "line", rstr "pattern", rstr "groove"]]) ]

/-- The `technicalPatterns` array, each entry compiled to its JS `test`
(the three `^...$` entries are full-string matches). -/
def technicalPatterns : List (List Char → Bool) :=
  [ reTest (rcat [altL [rstr "set", rstr "change", rstr "adjust", rstr "make"], wsP,
      theOpt, altL [rstr "bpm", rstr "tempo"]]),
    reTest (rcat [rstr "bpm", wsP, altL [rstr "to", rstr "="], wsS, digitsRe]),
    reTest (rcat [rstr "tempo", wsP, altL [rstr "to", rstr "="], wsS, digitsRe]),
    reTest (rcat [digitsRe, wsS, rstr "bpm"]),
    reTest (rcat [altL [rstr "increase", rstr "decrease", rstr "raise", rstr "lower",
      rstr "bump"], wsP, theOpt, altL [rstr "bpm", rstr "tempo", rstr "volume", rstr "pan"]]),
    reTest (rcat [altL [rstr "bpm", rstr "tempo", rstr "volume", rstr "pan"], wsP,
      altL [rstr "up", rstr "down"]]),
    reTest (rcat [rstr "by", wsP, digitsRe, wsS, ropt (rstr "bpm")]),
    reTest (rcat [altL [rstr "faster", rstr "slower"], wsS,
      ropt (altL [rstr "tempo", rstr "bpm"])]),
    reTest (rcat [rstr "speed", wsP, altL [rstr "up", rstr "down"]]),
    reTest (rcat [altL [rstr "double", rstr "half", rstr "halve"], wsP, theOpt,
      altL [rstr "tempo", rstr "bpm", rstr "speed"]]),
    fullMatch (altL [rstr "play", rstr "stop", rstr "pause", rstr "record"]),
    fullMatch (rstr "play"),
    fullMatch (rstr "stop"),
    reTest (altL [rstr "mute", rstr "solo", rstr "unmute"]),
    reTest (rcat [rstr "volume", wsP, altL [rstr "to", rstr "up", rstr "down"]]),
    reTest (rcat [rstr "pan", wsP, altL [rstr "to", rstr "left", rstr "right"]]),
    reTest (rcat [rstr "delete", wsP, theOpt,
      altL [rstr "pattern", rstr "note", rstr "clip", rstr "track", rstr "channel"]]),
    reTest (rcat [rstr "remove", wsP, theOpt,
      altL [rstr "pattern", rstr "note", rstr "clip", rstr "track", rstr "channel"]]),
    reTest (rcat [rstr "move", wsP, theOpt, altL [rstr "clip", rstr "pattern", rstr "note"]]),
    reTest (rcat [rstr "copy", wsP, theOpt, altL [rstr "clip", rstr "pattern", rstr "note"]]),
    reTest (rstr "duplicate"),
    reTest (rstr "resize"),
    reTest (rcat [rstr "extend", wsP, theOpt,
      altL [rstr "melody", rstr "pattern", rstr "clip", rstr "beat", rstr "track"]]),
    reTest (rcat [rstr "shorten", wsP, theOpt,
      altL [rstr "melody", rstr "pattern", rstr "clip", rstr "beat", rstr "track"]]),
    reTest (rcat [rstr "make", wsP, altL [rstr "it", rcat [rstr "the", wsP, wordP]], wsP,
      altL [rstr "longer", rstr "shorter"]]),
    reTest (rcat [digitsRe, wsS, rstr "bar", ropt (rchr 's'), wsS,
      altL [rstr "longer", rstr "shorter"]]),
    reTest (rcat [altL [rstr "longer", rstr "shorter"], wsS, rstr "by", wsS, digitsRe]),
    reTest (rcat [rstr "set", wsP, theOpt,
      altL [rstr "loop", rstr "position", rstr "start", rstr "end"]]),
    reTest (rcat [rstr "loop", wsP, altL [rstr "from", rstr "to", rstr "at"]]),
    reTest (rcat [rstr "change", wsP, theOpt,
      altL [rstr "volume", rstr "pan", rstr "pitch", rstr "key", rstr "scale"]]),
    reTest (rcat [rstr "adjust", wsP, theOpt,
      altL [rstr "volume", rstr "pan", rstr "pitch", rstr "key", rstr "scale"]]),
    reTest (rstr "modify"),
    reTest (rstr "edit"),
    reTest (rstr "update"),
    reTest (rstr "toggle"),
    reTest (rcat [rstr "clear", wsP, theOpt,
      altL [rstr "pattern", rstr "clip", rstr "track", rstr "all"]]),
    reTest (altL [rstr "undo", rstr "redo"]),
    reTest (rstr "export"),
    reTest (altL [rstr "save", rstr "load"]),
    reTest (rstr "rename"),
    reTest (rstr "quantize"),
    reTest (rstr "snap") ]

/-- The regex `/(bpm|tempo|volume|pan|by|to|=)/` of the unmatched-input default logic. -/
def paramWordsRe : Re :=
  altL [rstr "bpm", rstr "tempo", rstr "volume", rstr "pan", rstr "by", rstr "to",
        rstr "="]

/-- The function `classifyTask(userInput)`: classify user input to determine the best model
for the task (backboard.ts lines 190-337).  `input.split(' ').length` equals
the number of space characters plus one. -/
def classifyTask (userInput : String) : TaskType :=
  let input := jsLower userInput
  if reTest digitsRe input then .technical
  else if analyticalPatterns.any (fun p => p input) then .analytical
  else if creativePatterns.any (fun p => p input) then .creative
  else if technicalPatterns.any (fun p => p input) then .technical
  else if reTest digitsRe input && reTest paramWordsRe input then .technical
  else if input.count ' ' + 1 ≤ 3 then .technical
  else .creative

/-! ### Model provider configuration (backboard.ts lines 152-177, 342-351) -/

/-- One entry of `MODEL_CONFIGS`. -/
structure ModelConfig where
  provider : String
  modelName : String
  description : String
deriving DecidableEq

/-- The `MODEL_CONFIGS` record, indexed by the task-type key. -/
def MODEL_CONFIGS : TaskType → Option ModelConfig
  | .creative => some ⟨"google", "gemini-2.5-flash",
      "Google Gemini 2.5 Flash - Creative & musical tasks"⟩
  | .technical => some ⟨"openai", "gpt-4o",
      "OpenAI GPT-4o - Technical & precise tasks"⟩
  | .analytical => some ⟨"anthropic", "claude-sonnet-4-20250514",
      "Anthropic Claude Sonnet 4 - Analysis & explanations"⟩
  | .fallback => some ⟨"openai", "gpt-4o-mini",
      "OpenAI GPT-4o Mini - Fast fallback"⟩

/-- The function `getModelForTask(taskType)`: record lookup with a hard-coded fallback. -/
def getModelForTask (taskType : TaskType) : ModelConfig :=
  match MODEL_CONFIGS taskType with
  | some config => config
  | none => ⟨"openai", "gpt-4o-mini", "OpenAI GPT-4o Mini - Fast fallback"⟩

/-! ### JS values (for response `parameters` objects and parsed JSON) -/

/-- Untyped JS values as far as this code observes them.  Numbers are modelled
as exact rationals (every numeric literal in the embedded code is exact in
double precision).  `undefined` stands for JS `undefined`. -/
inductive JsVal where
  | undefined : JsVal
  | null : JsVal
  | bool (b : Bool) : JsVal
  | num (q : Rat) : JsVal
  | str (s : String) : JsVal
  | arr (xs : List JsVal) : JsVal
  | obj (fields : List (String × JsVal)) : JsVal

/-- JS truthiness of the values representable here. -/
def jsTruthy : JsVal → Bool
  | .undefined => false
  | .null => false
  | .bool b => b
  | .num q => !(q == 0)
  | .str s => !(s == "")
  | .arr _ => true
  | .obj _ => true

/-- JS `Array.isArray`. -/
def isJsArray : JsVal → Bool
  | .arr _ => true
  | _ => false

/-- Property access `v.k`.  On objects it is field lookup (first binding wins,
our objects have no duplicate keys); on primitives and arrays the properties
accessed by this code are all absent, giving `undefined`.  The code only
dereferences `null`-checked values, so the `null`/`undefined` case (which would
throw in JS) is unreachable where this is used. -/
def getField (v : JsVal) (k : String) : JsVal :=
  match v with
  | .obj fields =>
    match fields.find? (fun p => p.1 == k) with
    | some p => p.2
    | none => .undefined
  | _ => .undefined

/-- JS `a || b`. -/
def jsOr (a b : JsVal) : JsVal := if jsTruthy a then a else b

/-- Truthiness of an optional string (JS `string | null | undefined`):
truthy exactly when present and non-empty. -/
def jsTruthyOpt : Option String → Bool
  | some s => !(s == "")
  | none => false

/-! ### `hashContext` (backboard.ts lines 408-419) -/

/-- Wrap an integer to a signed 32-bit value (JS `ToInt32`, the effect of
`<< 0` / `& -1` style coercions and of `hash & hash`). -/
def toInt32 (n : Int) : Int :=
  ((n + 2147483648) % 4294967296) - 2147483648

/-- UTF-16 code units of one character (JS `charCodeAt` iterates these). -/
def utf16Units (c : Char) : List Nat :=
  let n := c.toNat
  if n < 65536 then [n]
  else [55296 + (n - 65536) / 1024, 56320 + (n - 65536) % 1024]

/-- All UTF-16 code units of a string, in order. -/
def utf16Of (s : String) : List Nat :=
  s.toList.foldr (fun c acc => utf16Units c ++ acc) []

/-- One loop iteration of `hashContext`:
`hash = (hash << 5) - hash + char; hash = hash & hash`, i.e.
`toInt32 (toInt32 (h * 32) - h + u)`.  Matching on the `Int` constructor
first forces the accumulator to a normal form, which keeps kernel reduction
of the fold linear (the arithmetic is unchanged in both branches). -/
def hashStep : Int → Nat → Int
  | Int.ofNat m, u => toInt32 (toInt32 (Int.ofNat m * 32) - Int.ofNat m + u)
  | Int.negSucc m, u => toInt32 (toInt32 (Int.negSucc m * 32) - Int.negSucc m + u)

/-- Hex digit for `Number.prototype.toString(16)` (lower case). -/
def hexDigit (n : Nat) : Char :=
  if n < 10 then Char.ofNat (48 + n) else Char.ofNat (87 + n)

/-- Hex digits of a positive natural, most significant first.  `fuel` only
bounds the recursion (`n / 16 < n` for positive `n`, so `fuel = n` is always
enough); structural recursion keeps the definition reducible. -/
def natToHexAux : Nat → Nat → List Char → List Char
  | 0, _, acc => acc
  | fuel + 1, n, acc =>
    if n = 0 then acc else natToHexAux fuel (n / 16) (hexDigit (n % 16) :: acc)

/-- JS `n.toString(16)` for a natural number. -/
def natToHex (n : Nat) : String :=
  if n = 0 then "0" else String.mk (natToHexAux n n [])

/-- JS `i.toString(16)` for a (32-bit) integer: JS prefixes a minus sign and
renders the magnitude. -/
def intToHex (i : Int) : String :=
  if i < 0 then "-" ++ natToHex i.natAbs else natToHex i.toNat

/-- The function `hashContext(context)`: simple 32-bit string hash rendered in hex,
used for context comparison. -/
def hashContext (context : String) : String :=
  intToHex ((utf16Of context).foldl hashStep 0)

/-! ### Backboard responses and the mock responders -/

/-- A `BackboardResponse` as this code builds them: an action name, a
`parameters` object, and optional `confidence` / `reasoning` fields
(`undefined` when the source object literal omits them). -/
structure BResp where
  action : String
  parameters : JsVal
  confidence : JsVal
  reasoning : JsVal

/-- The `wrapInBatch` helper of the newer `mockBackboardResponse`: wrap a
single action in the `__batch__` format. -/
def wrapInBatch (action : String) (parameters : JsVal) (confidence : Rat)
    (reasoning : String) : BResp :=
  { action := "__batch__",
    parameters := .obj [("actions",
      .arr [.obj [("action", .str action), ("parameters", parameters)]])],
    confidence := .num confidence,
    reasoning := .str reasoning }

/-- The `instruments` array searched by the add-pattern mock branch. -/
def instruments : List String :=
  ["kick", "snare", "hihat", "clap", "tom", "cymbal"]

/-- First instrument mentioned in the lower-cased input
(`instruments.find(inst => lowerText.includes(inst))`). -/
def foundInstrument (lower : List Char) : Option String :=
  instruments.find? (fun inst => sContainsL lower inst)

/-- Name for the new pattern in the add-pattern mock branch. -/
def mockPatternName (lower : List Char) : String :=
  match foundInstrument lower with
  | some inst => capFirst inst ++ " Pattern"
  | none => "New Pattern"

/-- The `parameters` of the add-pattern mock branch (shared verbatim between the
older and the newer mock). -/
def mockPatternParams (lower : List Char) : JsVal :=
  .obj [("name", .str (mockPatternName lower)), ("lengthInSteps", .num 16)]

/-- The `reasoning` of the add-pattern mock branch. -/
def mockPatternReasoning (lower : List Char) : String :=
  "Creating a new pattern" ++
    (match foundInstrument lower with
     | some inst => " for " ++ inst
     | none => "")

/-- BPM extracted by the set-bpm mock branch:
`text.match(/\d+/)` (on the original text) then `parseInt`, default 120. -/
def mockBpm (text : String) : Nat :=
  match firstDigitRun text.toList with
  | some ds => digitsToNat ds
  | none => 120

/-- The `parameters` of the add-note mock branch. -/
def mockNoteParams : JsVal :=
  .obj [("patternId", .str "current"), ("pitch", .num 60), ("startTick", .num 0),
        ("durationTick", .num 96), ("velocity", .num 100)]

/-- Branch condition `lowerText.includes('pattern') && (lowerText.includes('add')
|| lowerText.includes('create'))`. -/
def condPattern (text : String) : Bool :=
  sContainsL (jsLower text) "pattern" &&
    (sContainsL (jsLower text) "add" || sContainsL (jsLower text) "create")

/-- Branch condition `lowerText.includes('bpm') || lowerText.includes('tempo')`. -/
def condBpm (text : String) : Bool :=
  sContainsL (jsLower text) "bpm" || sContainsL (jsLower text) "tempo"

/-- Branch condition `lowerText.match(/^(play|start)/) ||
lowerText.includes('play it')`. -/
def condPlay (text : String) : Bool :=
  matchFrom (altL [rstr "play", rstr "start"]) (jsLower text) ||
    sContainsL (jsLower text) "play it"

/-- Branch condition `lowerText.match(/^stop/)`. -/
def condStop (text : String) : Bool :=
  matchFrom (rstr "stop") (jsLower text)

/-- Branch condition `lowerText.includes('note')`. -/
def condNote (text : String) : Bool :=
  sContainsL (jsLower text) "note"

/-- Branch condition of the newer mock's AI-ghost-preview branch:
`lowerText.includes('suggest') && (lowerText.includes('clip') ||
lowerText.includes('next'))`. -/
def condSuggest (text : String) : Bool :=
  sContainsL (jsLower text) "suggest" &&
    (sContainsL (jsLower text) "clip" || sContainsL (jsLower text) "next")

/-- Branch condition of the newer mock's make-a-beat branch:
`lowerText.includes('beat') && (lowerText.includes('make') ||
lowerText.includes('create'))`. -/
def condBeat (text : String) : Bool :=
  sContainsL (jsLower text) "beat" &&
    (sContainsL (jsLower text) "make" || sContainsL (jsLower text) "create")

/-- The older `mockBackboardResponse` (src/lib/ai/backboard.ts lines 60-140):
single-action responses. -/
def mockBackboardResponseOld (text _model : String) : BResp :=
  if condPattern text then
    { action := "addPattern", parameters := mockPatternParams (jsLower text),
      confidence := .num 0.9, reasoning := .str (mockPatternReasoning (jsLower text)) }
  else if condBpm text then
    { action := "setBpm", parameters := .obj [("bpm", .num (mockBpm text))],
      confidence := .num 0.95,
      reasoning := .str ("Setting tempo to " ++ toString (mockBpm text) ++ " BPM") }
  else if condPlay text then
    { action := "play", parameters := .obj [], confidence := .num 1,
      reasoning := .str "Starting playback" }
  else if condStop text then
    { action := "stop", parameters := .obj [], confidence := .num 1,
      reasoning := .str "Stopping playback" }
  else if condNote text then
    { action := "addNote", parameters := mockNoteParams, confidence := .num 0.7,
      reasoning := .str "Adding a note to the current pattern" }
  else
    { action := "clarificationNeeded",
      parameters := .obj [
        ("message", .str ("I understand you want to \"" ++ text ++
          "\", but I'm not sure how to help with that. Try commands like \"add a kick pattern\", \"set BPM to 128\", or \"play\".")),
        ("suggestedOptions", .arr [.str "Add a pattern", .str "Set BPM",
          .str "Play/Stop", .str "Add a note"])],
      confidence := .num 0.1, reasoning := .str "Command not recognized" }

/-! ### System-prompt parsing of the newer mock's ghost-preview branch
(FIX_EXTEND_TRACK.md backboard.ts lines 441-562) -/

/-- Try `/track (\d+)/i` at the start of `s`: the literal `track ` matched
case-insensitively, followed by at least one digit (the capture). -/
def matchTrackAt (s : List Char) : Option Nat :=
  if isPrefixL "track ".toList (s.map jsToLower) then
    let ds := (s.drop 6).takeWhile Char.isDigit
    if ds.isEmpty then none else some (digitsToNat ds)
  else none

/-- The match `systemPrompt.match(/track (\d+)/i)`: leftmost match's captured number. -/
def findTrackNum : List Char → Option Nat
  | [] => none
  | c :: cs =>
    match matchTrackAt (c :: cs) with
    | some n => some n
    | none => findTrackNum cs

/-- The character class `["\s:]` of the start-tick regex. -/
def stClass (c : Char) : Bool := c == quoteC || isJsSpace c || c == ':'

/-- Try `/startTick["\s:]+(\d+)/` at the start of `s`.  The class excludes
digits, so the match is forced: a maximal class run then the digit capture. -/
def matchStartTickAt (s : List Char) : Option Nat :=
  if isPrefixL "startTick".toList s then
    let rest := s.drop 9
    let run := rest.takeWhile stClass
    if run.isEmpty then none
    else
      let ds := (rest.drop run.length).takeWhile Char.isDigit
      if ds.isEmpty then none else some (digitsToNat ds)
  else none

/-- The match `systemPrompt.match(/startTick["\s:]+(\d+)/)`: leftmost captured number. -/
def findStartTick : List Char → Option Nat
  | [] => none
  | c :: cs =>
    match matchStartTickAt (c :: cs) with
    | some n => some n
    | none => findStartTick cs

/-- The character class `[a-zA-Z0-9-]` of the pattern-list regex. -/
def idClass (c : Char) : Bool := c.isAlpha || c.isDigit || c == '-'

/-- Try `/"([^"]+)" \((\d+) bars, ID: ([a-zA-Z0-9-]+)\)/` at the start of `s`.
Every sub-pattern's follow set is disjoint from its character class, so the
greedy match is forced and no backtracking can occur.  Returns the three
captures (name, bars, id) and the remainder after the match. -/
def matchPatternAt (s : List Char) : Option ((String × Nat × String) × List Char) :=
  match s with
  | c0 :: rest =>
    if !(c0 == quoteC) then none
    else
    let name := rest.takeWhile (fun c => !(c == quoteC))
    if name.isEmpty then none
    else
      match rest.drop name.length with
      | c1 :: r2 =>
        if !(c1 == quoteC) then none
        else if isPrefixL " (".toList r2 then
          let ds := (r2.drop 2).takeWhile Char.isDigit
          if ds.isEmpty then none
          else
            let r4 := (r2.drop 2).drop ds.length
            if isPrefixL " bars, ID: ".toList r4 then
              let idrun := (r4.drop 11).takeWhile idClass
              if idrun.isEmpty then none
              else
                match (r4.drop 11).drop idrun.length with
                | ')' :: r6 =>
                  some ((String.mk name, digitsToNat ds, String.mk idrun), r6)
                | _ => none
            else none
        else none
      | _ => none
  | _ => none

/-- The `while ((match = patternRegex.exec(systemPrompt)) !== null)` loop:
collect all non-overlapping matches left to right.  `fuel` bounds the scan;
each step either advances one character or consumes a non-empty match, so an
initial fuel of `s.length` is enough. -/
def findAvailablePatternsAux : Nat → List Char → List (String × Nat × String)
  | 0, _ => []
  | _, [] => []
  | fuel + 1, s@(_ :: rest) =>
    match matchPatternAt s with
    | some (t, rem) => t :: findAvailablePatternsAux fuel rem
    | none => findAvailablePatternsAux fuel rest

/-- All `availablePatterns` entries parsed from the system prompt. -/
def findAvailablePatterns (s : List Char) : List (String × Nat × String) :=
  findAvailablePatternsAux s.length s

/-- Try the history regex (literal dash and space, a quoted non-empty name,
then the literal ` (Bars`) at the start of `s` (track-history entries).
Returns the captured name and the remainder after the match. -/
def matchHistoryAt (s : List Char) : Option (String × List Char) :=
  match s with
  | '-' :: ' ' :: c0 :: rest =>
    if !(c0 == quoteC) then none
    else
    let name := rest.takeWhile (fun c => !(c == quoteC))
    if name.isEmpty then none
    else
      match rest.drop name.length with
      | c1 :: r2 =>
        if !(c1 == quoteC) then none
        else if isPrefixL " (Bars".toList r2 then some (String.mk name, r2.drop 6)
        else none
      | _ => none
  | _ => none

/-- The `historyRegex.exec` loop.  The collected `usedPatternNames` are only
logged by the source, never used in the returned value. -/
def findUsedPatternNamesAux : Nat → List Char → List String
  | 0, _ => []
  | _, [] => []
  | fuel + 1, s@(_ :: rest) =>
    match matchHistoryAt s with
    | some (t, rem) => t :: findUsedPatternNamesAux fuel rem
    | none => findUsedPatternNamesAux fuel rest

/-- All `usedPatternNames` parsed from the system prompt (logging only). -/
def findUsedPatternNames (s : List Char) : List String :=
  findUsedPatternNamesAux s.length s

/-- A note object `{ pitch, startTick, durationTick, velocity }`. -/
def noteObj (pitch startTick durationTick velocity : Nat) : JsVal :=
  .obj [("pitch", .num pitch), ("startTick", .num startTick),
        ("durationTick", .num durationTick), ("velocity", .num velocity)]

/-- The three `noteVariations` of the ghost-preview branch. -/
def noteVariations : List (List JsVal) :=
  [ [ noteObj 36 0 96 100, noteObj 36 192 48 80, noteObj 38 288 48 90,
      noteObj 41 384 96 100, noteObj 36 576 48 85, noteObj 43 672 96 95 ],
    [ noteObj 60 0 48 90, noteObj 62 96 48 85, noteObj 64 192 96 100,
      noteObj 62 384 48 80, noteObj 60 480 48 85, noteObj 57 576 96 95 ],
    [ noteObj 48 0 24 100, noteObj 48 96 24 70, noteObj 48 192 24 100,
      noteObj 48 288 24 70, noteObj 48 384 24 100, noteObj 48 480 24 70,
      noteObj 48 576 24 100, noteObj 48 672 24 70 ] ]

/-- The ghost-preview ("suggest what clip should come next") branch of the
newer mock.  The defaults are `trackIndex = 0`, `startTick = 384`; a truthy
system prompt is parsed for a track number (`parseInt - 1`, hence `Int`), a
suggested start tick and the available patterns.  The used-pattern names are
parsed too but only logged. -/
def suggestResponse (systemPrompt : Option String) : BResp :=
  let promptChars : Option (List Char) :=
    if jsTruthyOpt systemPrompt then (systemPrompt.getD "").toList |> some else none
  let trackIndex : Int :=
    match promptChars with
    | some l => match findTrackNum l with
                | some n => (n : Int) - 1
                | none => 0
    | none => 0
  let startTick : Nat :=
    match promptChars with
    | some l => match findStartTick l with
                | some n => n
                | none => 384
    | none => 384
  let availablePatterns :=
    match promptChars with
    | some l => findAvailablePatterns l
    | none => []
  let newPatternName := "AI Generated Beat"
  let durationBars := 2
  let ticksPerBar := 384
  let variationIndex := availablePatterns.length % noteVariations.length
  let generatedNotes := noteVariations.getD variationIndex []
  { action := "__batch__",
    parameters := .obj [("actions", .arr [
      .obj [("action", .str "addPattern"),
            ("parameters", .obj [("name", .str newPatternName),
              ("lengthInSteps", .num (durationBars * 16))])],
      .obj [("action", .str "addNoteSequence"),
            ("parameters", .obj [("patternId", .str "__NEW_PATTERN__"),
              ("notes", .arr generatedNotes)])],
      .obj [("action", .str "addClip"),
            ("parameters", .obj [("patternId", .str "__NEW_PATTERN__"),
              ("trackIndex", .num trackIndex),
              ("startTick", .num startTick),
              ("durationTick", .num (durationBars * ticksPerBar))])] ])],
    confidence := .num 0.9,
    reasoning := .str ("Creating \"" ++ newPatternName ++
      "\" with fresh notes just for you! 🎵") }

/-- One `addAudioSample` action object of the make-a-beat branch. -/
def sampleAction (subcategory : String) (trackIndex tick : Nat) : JsVal :=
  .obj [("action", .str "addAudioSample"),
        ("parameters", .obj [("category", .str "drums"),
          ("subcategory", .str subcategory), ("trackIndex", .num trackIndex),
          ("startTick", .num tick)])]

/-- The `kickTicks` of the make-a-beat branch. -/
def kickTicks : List Nat := [0, 144, 384, 528, 768, 912, 1152, 1296]

/-- The `snareTicks` of the make-a-beat branch. -/
def snareTicks : List Nat := [96, 288, 480, 672, 864, 1056, 1248, 1440]

/-- The hi-hat loop `for (tick = 0; tick < 1536; tick += 48)`: the 32 ticks
`0, 48, ..., 1488`. -/
def hihatTicks : List Nat := (List.range 32).map (fun i => i * 48)

/-- The make-a-beat branch of the newer mock: `setBpm 90` followed by kick,
snare and hi-hat sample placements. -/
def beatResponse : BResp :=
  { action := "__batch__",
    parameters := .obj [("actions", .arr (
      (.obj [("action", .str "setBpm"), ("parameters", .obj [("bpm", .num 90)])] ::
        kickTicks.map (fun t => sampleAction "kick" 0 t)) ++
      snareTicks.map (fun t => sampleAction "snare" 1 t) ++
      hihatTicks.map (fun t => sampleAction "hihat" 2 t)))],
    confidence := .num 0.9,
    reasoning := .str "Creating a 4-bar boom-bap beat: kicks on 1 and 2-and, snares on 2 and 4, 8th note hi-hats throughout" }

/-- The newer `mockBackboardResponse` (FIX_EXTEND_TRACK.md backboard.ts lines
426-661): every response is in `__batch__` format; two extra branches
(ghost preview, make-a-beat) precede the branches shared with the older mock. -/
def mockBackboardResponseNew (text _model : String) (systemPrompt : Option String) :
    BResp :=
  if condSuggest text then suggestResponse systemPrompt
  else if condBeat text then beatResponse
  else if condPattern text then
    wrapInBatch "addPattern" (mockPatternParams (jsLower text)) 0.9
      (mockPatternReasoning (jsLower text))
  else if condBpm text then
    wrapInBatch "setBpm" (.obj [("bpm", .num (mockBpm text))]) 0.95
      ("Setting tempo to " ++ toString (mockBpm text) ++ " BPM")
  else if condPlay text then
    wrapInBatch "play" (.obj []) 1 "Starting playback"
  else if condStop text then
    wrapInBatch "stop" (.obj []) 1 "Stopping playback"
  else if condNote text then
    wrapInBatch "addNote" mockNoteParams 0.7 "Adding a note to the current pattern"
  else
    wrapInBatch "clarificationNeeded"
      (.obj [
        ("message", .str ("I understand you want to \"" ++ text ++
          "\", but I'm not sure how to help with that. Try commands like \"make a beat\", \"add a kick pattern\", \"set BPM to 128\", or \"play\".")),
        ("suggestedOptions", .arr [.str "Make a beat", .str "Add a pattern",
          .str "Set BPM", .str "Play/Stop"])])
      0.1 "Command not recognized"

/-! ### Response-content handling of the newer `sendToModel`
(FIX_EXTEND_TRACK.md backboard.ts lines 811-864) -/

/-- Drop one leading newline if present (the `\n?` of the fence regexes). -/
def dropNL : List Char → List Char
  | '\n' :: r => r
  | r => r

/-- Remove every occurrence of `tok` followed by an optional newline,
scanning left to right (JS `content.replace(/tok\n?/g, '')`). -/
def stripTok (tok : List Char) : List Char → List Char
  | [] => []
  | c :: cs =>
    if h : tok ≠ [] ∧ isPrefixL tok (c :: cs) then
      stripTok tok (dropNL ((c :: cs).drop tok.length))
    else c :: stripTok tok cs
termination_by l => l.length
decreasing_by
  · have h2 : ((c :: cs).drop tok.length).length ≤ cs.length := by
      have h3 : 1 ≤ tok.length := by
        cases tok with
        | nil => exact absurd rfl h.1
        | cons a as => simp
      simp [List.length_drop]
      omega
    have h1 : (dropNL ((c :: cs).drop tok.length)).length ≤
        ((c :: cs).drop tok.length).length := by
      generalize (c :: cs).drop tok.length = xs
      unfold dropNL
      split <;> simp
    simp only [List.length_cons]
    omega
  · simp

/-- Drop leading JS whitespace. -/
def trimLeft (l : List Char) : List Char := l.dropWhile isJsSpace

/-- JS `String.prototype.trim` (ASCII whitespace). -/
def jsTrim (l : List Char) : List Char :=
  trimLeft ((trimLeft l.reverse).reverse)

/-- Strip markdown code fences and trim:
`content.replace(/```json\n?/g, '').replace(/```\n?/g, '').trim()`. -/
def stripFences (content : String) : String :=
  String.mk (jsTrim (stripTok "```".toList (stripTok "```json".toList content.toList)))

/-- The `unknown` fallback response returned when the model's content cannot
be parsed as JSON: a `__batch__` response with the single action `unknown`
carrying the original user text and the raw (fence-stripped) response. -/
def unknownResponse (text content : String) : BResp :=
  { action := "__batch__",
    parameters := .obj [("actions", .arr [
      .obj [("action", .str "unknown"),
            ("parameters", .obj [("originalText", .str text),
              ("reason", .str "Failed to parse AI response"),
              ("rawResponse", .str content)])]])],
    confidence := .undefined,
    reasoning := .undefined }

/-- The try/catch block around `JSON.parse` in the newer `sendToModel`.
`jsonParse` stands for the platform's `JSON.parse`, modelled as a parameter
(`none` = the parse threw).  A parsed `null` (or the unreachable `undefined`)
makes the subsequent `parsed.actions` access throw, which the same `catch`
turns into the `unknown` response.  Objects with a truthy array `actions`
field are passed through as a batch; anything else takes the legacy
single-action path with `parsed.action || 'unknown'` and
`parsed.parameters || {}`. -/
def handleModelContent (jsonParse : String → Option JsVal) (text rawContent : String) :
    BResp :=
  let content := stripFences rawContent
  match jsonParse content with
  | none => unknownResponse text content
  | some parsed =>
    match parsed with
    | .null => unknownResponse text content
    | .undefined => unknownResponse text content
    | _ =>
      if jsTruthy (getField parsed "actions") && isJsArray (getField parsed "actions") then
        { action := "__batch__",
          parameters := .obj [("actions", getField parsed "actions"),
            ("sampleChoices", getField parsed "sampleChoices")],
          confidence := getField parsed "confidence",
          reasoning := getField parsed "reasoning" }
      else
        { action := "__batch__",
          parameters := .obj [("actions", .arr [
            .obj [("action", jsOr (getField parsed "action") (.str "unknown")),
                  ("parameters", jsOr (getField parsed "parameters") (.obj []))]])],
          confidence := getField parsed "confidence",
          reasoning := getField parsed "reasoning" }

/-! ### The retry wrapper of `sendToModel` (both versions, backboard.ts
lines 756-890 new / 211-267 old) -/

/-- The `MAX_RETRIES` constant. -/
def MAX_RETRIES : Nat := 2

/-- The `RETRY_DELAY_MS` constant. -/
def RETRY_DELAY_MS : Nat := 1000

/-- Outcome of one attempt of the try-block (assistant/thread setup, the SDK
call and response handling are network effects abstracted as this oracle);
`fail msg` is a thrown `Error` with message `msg`. -/
inductive AttemptOutcome (α : Type) where
  | ok (value : α)
  | fail (msg : String)

/-- Observable result of the retry loop: the value or thrown error, how many
attempts were made, and the sleep durations (ms) in order. -/
inductive RetryResult (α : Type) where
  | success (value : α) (attempts : Nat) (sleeps : List Nat)
  | fatal (msg : String) (attempts : Nat) (sleeps : List Nat)
  | exhausted (lastError : String) (attempts : Nat) (sleeps : List Nat)

/-- Attempts made. -/
def RetryResult.attempts : RetryResult α → Nat
  | .success _ a _ => a
  | .fatal _ a _ => a
  | .exhausted _ a _ => a

/-- Sleeps performed, in order. -/
def RetryResult.sleeps : RetryResult α → List Nat
  | .success _ _ s => s
  | .fatal _ _ s => s
  | .exhausted _ _ s => s

/-- Record one earlier attempt and the sleep that preceded the rest. -/
def RetryResult.after (ms : Nat) : RetryResult α → RetryResult α
  | .success v a s => .success v (a + 1) (ms :: s)
  | .fatal m a s => .fatal m (a + 1) (ms :: s)
  | .exhausted e a s => .exhausted e (a + 1) (ms :: s)

/-- The `for (attempt = 0; attempt <= MAX_RETRIES; attempt++)` loop of
`sendToModel`.  `remaining` is the number of attempts the loop will still
run (`MAX_RETRIES + 1 - attempt`, so the `0` case is never reached from
`retryLoop`).  A caught error containing `401`/`403` throws
`Invalid Backboard API key` at once; one containing `429` throws the
rate-limit error at once; otherwise the loop sleeps
`RETRY_DELAY_MS * (attempt + 1)` ms and retries while attempts remain. -/
def retryGo (outcomes : Nat → AttemptOutcome α) (attempt : Nat) :
    Nat → RetryResult α
  | 0 => .exhausted "" 0 []
  | remaining + 1 =>
    match outcomes attempt with
    | .ok v => .success v 1 []
    | .fail e =>
      if sContains e "401" || sContains e "403" then
        .fatal "Invalid Backboard API key" 1 []
      else if sContains e "429" then
        .fatal "Rate limit exceeded. Please try again later." 1 []
      else if remaining = 0 then
        .exhausted e 1 []
      else
        (retryGo outcomes (attempt + 1) remaining).after
          (RETRY_DELAY_MS * (attempt + 1))

/-- The whole retry loop, starting at attempt 0 with `MAX_RETRIES + 1`
attempts available.  (After exhaustion the newer source falls back to
`mockBackboardResponse`; the older one throws — both outside the loop.) -/
def retryLoop (outcomes : Nat → AttemptOutcome α) : RetryResult α :=
  retryGo outcomes 0 (MAX_RETRIES + 1)

/-! ### Assistant/thread cache (FIX_EXTEND_TRACK.md backboard.ts lines
353-359, 694-738) -/

/-- The module-level cache: `cachedAssistantId`, `cachedThreadId`,
`cachedContextHash`. -/
structure BackboardCache where
  cachedAssistantId : Option String
  cachedThreadId : Option String
  cachedContextHash : Option String
deriving DecidableEq

/-- Result of `getAssistant`: the returned assistant id, the cache
afterwards, and how many `createAssistant` SDK calls were made. -/
structure AssistantResult where
  assistantId : String
  cache : BackboardCache
  createCalls : Nat
deriving DecidableEq

/-- The function `getAssistant(systemPrompt)` as a cache transformer.  `newAssistantId`
stands for the id the SDK would return from `createAssistant`.  If a cached
assistant exists and the cached context hash differs from
`hashContext(systemPrompt)`, both cached ids are cleared; then a (still)
cached assistant id is returned without any SDK call, else a new assistant
is created and the id and hash are cached. -/
def getAssistantModel (newAssistantId systemPrompt : String)
    (st : BackboardCache) : AssistantResult :=
  let contextHash := hashContext systemPrompt
  let st1 :=
    if jsTruthyOpt st.cachedAssistantId &&
        !(st.cachedContextHash == some contextHash) then
      { st with cachedAssistantId := none, cachedThreadId := none }
    else st
  if jsTruthyOpt st1.cachedAssistantId then
    ⟨st1.cachedAssistantId.getD "", st1, 0⟩
  else
    ⟨newAssistantId,
     { st1 with cachedAssistantId := some newAssistantId,
                cachedContextHash := some contextHash }, 1⟩

/-- The function `getThread(assistantId)` as a cache transformer (`newThreadId` is the id
`createThread` would return). -/
def getThreadModel (newThreadId : String) (st : BackboardCache) :
    String × BackboardCache × Nat :=
  if jsTruthyOpt st.cachedThreadId then
    (st.cachedThreadId.getD "", st, 0)
  else
    (newThreadId, { st with cachedThreadId := some newThreadId }, 1)

/-! ### ChatPanel result handling (components/panels/ChatPanel.tsx
lines 122-198) -/

/-- Message status of a `ChatMessage`. -/
inductive MsgStatus where
  | sending
  | sent
  | error
deriving DecidableEq

/-- The fields of `executeBatch`'s result that `handleSend` reads:
`success`, `message`, `successCount`, `undoGroupId`. -/
structure BatchResult where
  success : Bool
  message : String
  successCount : Nat
  undoGroupId : Option String

/-- The fields of `executeCommand`'s result that `handleSend` reads
(`commandId` is `result.data?.commandId`). -/
structure CommandResult where
  success : Bool
  message : String
  commandId : Option String

/-- Status of the agent message `handleSend` adds for a batch result:
`'sent'` on success, otherwise `successCount > 0 ? 'sent' : 'error'`. -/
def batchAgentStatus (r : BatchResult) : MsgStatus :=
  if r.success then .sent
  else if r.successCount > 0 then .sent else .error

/-- The `lastAICommandId` after the batch path of `handleSend`: on success,
`chat.setLastCommand(batchResult.undoGroupId)` is called when the group id
is truthy; otherwise the previous value is kept. -/
def batchLastCommand (prev : Option String) (r : BatchResult) : Option String :=
  if r.success then
    if jsTruthyOpt r.undoGroupId then r.undoGroupId else prev
  else prev

/-- Status of the agent message for a legacy single-command result. -/
def singleAgentStatus (r : CommandResult) : MsgStatus :=
  if r.success then .sent else .error

/-- Text of the agent message for a legacy single-command result. -/
def singleAgentMessage (r : CommandResult) : String :=
  if r.success then r.message else "Error: " ++ r.message

/-- The `lastAICommandId` after the single-command path: on success,
`chat.setLastCommand(result.data.commandId)` is called when the command id
is present (truthy); on failure nothing is recorded. -/
def singleLastCommand (prev : Option String) (r : CommandResult) : Option String :=
  if r.success then
    if jsTruthyOpt r.commandId then r.commandId else prev
  else prev

/-! ### Request building and the default system prompt
(ChatPanel.tsx lines 122-141; FIX_EXTEND_TRACK.md backboard.ts lines 361-399,
756-769) -/

/-- Modelled from the spec: the store's project state read by
`useStore.getState().project` (lib/state is not in src/); only its role as
input of the context builder matters here. -/
structure ProjectState where
  bpm : Nat
  patternNames : List String
deriving DecidableEq

/-- Modelled from the spec: the sample library loaded by
`loadSampleLibrary()` (lib/audio/SampleLibrary.ts is not in src/). -/
structure SampleLibrary where
  sampleNames : List String
deriving DecidableEq

/-- Modelled from the spec: `buildDAWContext(project, sampleLibrary)`
(lib/ai/contextBuilder.ts is not in src/) packages the live project state
and sample library for prompt generation. -/
def buildDAWContext (project : ProjectState) (library : SampleLibrary) :
    ProjectState × SampleLibrary :=
  (project, library)

/-- Modelled from the spec: `generateSystemPrompt(context)`
(lib/ai/contextBuilder.ts is not in src/) renders "a text block describing
current project state, injected into the AI request". -/
def generateSystemPrompt (context : ProjectState × SampleLibrary) : String :=
  "Current project state: BPM " ++ toString context.1.bpm ++
    "; patterns: " ++ String.intercalate ", " context.1.patternNames ++
    "; samples: " ++ String.intercalate ", " context.2.sampleNames

/-- The JSON body `handleSend` POSTs to `/api/chat`. -/
structure ChatRequestBody where
  text : String
  model : String
  conversationHistory : List (String × String)
  systemPrompt : String
deriving DecidableEq

/-- The slice `messages.slice(-5)`. -/
def lastFive (messages : List (String × String)) : List (String × String) :=
  messages.drop (messages.length - 5)

/-- The request `handleSend` builds: the user message, the selected model,
the last five chat messages, and a system prompt generated at send time from
the live project state via `buildDAWContext` / `generateSystemPrompt`. -/
def buildChatRequest (project : ProjectState) (library : SampleLibrary)
    (userMessage selectedModel : String) (messages : List (String × String)) :
    ChatRequestBody :=
  { text := userMessage,
    model := selectedModel,
    conversationHistory := lastFive messages,
    systemPrompt := generateSystemPrompt (buildDAWContext project library) }

/-- The `DEFAULT_SYSTEM_PROMPT` of the newer backboard.ts (lines 363-399); all
braces are doubled in the source to survive LangChain templating and are
written here with hex escapes. -/
def DEFAULT_SYSTEM_PROMPT : String :=
  "You are a DAW (Digital Audio Workstation) assistant for Pulse Studio. Convert natural language commands into structured JSON actions.\n\nIMPORTANT: Always respond with ONLY valid JSON, no markdown, no explanation.\n\nTIMING REFERENCE (PPQ = 96 ticks per beat):\n- 1 bar = 384 ticks, 4 bars = 1536 ticks\n- Quarter note = 96 ticks, 8th = 48, 16th = 24\n- Beat 1 = 0, Beat 2 = 96, Beat 3 = 192, Beat 4 = 288\n\nResponse format (always use actions array):\n\x7b\x7b\n  \"actions\": [\n    \x7b\x7b \"action\": \"commandName\", \"parameters\": \x7b\x7b ... \x7d\x7d \x7d\x7d\n  ],\n  \"confidence\": 0.0-1.0,\n  \"reasoning\": \"brief explanation\"\n\x7d\x7d\n\nAvailable actions:\n- addPattern: Create a new pattern. Parameters: \x7b\x7b\x7b\x7b name?: string, lengthInSteps?: number \x7d\x7d\x7d\x7d\n- addNote: Add a note. Parameters: \x7b\x7b\x7b\x7b patternId: string, pitch: number, startTick: number, durationTick: number, velocity?: number \x7d\x7d\x7d\x7d\n- setBpm: Set tempo. Parameters: \x7b\x7b\x7b\x7b bpm: number \x7d\x7d\x7d\x7d\n- play, stop, pause: Control playback (no parameters)\n- addChannel: Add instrument. Parameters: \x7b\x7b\x7b\x7b name?: string, type: \"synth\"|\"sampler\", preset?: string \x7d\x7d\x7d\x7d\n- addClip: Add clip to playlist. Parameters: \x7b\x7b\x7b\x7b patternId: string, trackIndex: number, startTick: number \x7d\x7d\x7d\x7d\n- setTrackEffect: Set mixer effect. Parameters: \x7b\x7b\x7b\x7b trackId: string, effectKey: string, value: number \x7d\x7d\x7d\x7d\n  Valid effectKey: \"volume\" (0-1), \"pan\" (-1 to 1), \"eqLow\", \"eqMid\", \"eqHigh\" (-12 to 12), \"compThreshold\" (-60 to 0), \"compRatio\" (1-20), \"reverbWet\" (0-1 for reverb)\n- addAudioSample: Add sample. Parameters: \x7b\x7b\x7b\x7b category: string, subcategory: string, trackIndex?: number, startTick?: number \x7d\x7d\x7d\x7d\n- clarificationNeeded: When unclear. Parameters: \x7b\x7b\x7b\x7b message: string, suggestedOptions?: string[] \x7d\x7d\x7d\x7d\n\nBEAT CREATION: For \"make a beat\" requests, create full 4-bar patterns with 30-50+ sample placements.\nExample tick positions for a 4-bar boom-bap:\n- Kicks: 0, 144, 384, 528, 768, 912, 1152, 1296\n- Snares: 96, 288, 480, 672, 864, 1056, 1248, 1440  \n- Hi-hats: 0, 48, 96, 144... every 48 ticks for 8th notes\n\nFor unclear commands use action \"clarificationNeeded\" with a message explaining what you need."

/-- The assignment `const effectiveSystemPrompt = systemPrompt || DEFAULT_SYSTEM_PROMPT` of
`sendToModel` — JS falsiness: the default is used when the argument is
missing or the empty string. -/
def effectiveSystemPrompt (systemPrompt : Option String) : String :=
  match systemPrompt with
  | some s => if s == "" then DEFAULT_SYSTEM_PROMPT else s
  | none => DEFAULT_SYSTEM_PROMPT

/-! ### Symbolic "current" id resolution (spec-modelled) -/

/-- A playlist clip as far as resolution is concerned. -/
structure Clip where
  id : String
  durationTick : Nat
deriving DecidableEq

/-- Modelled from the spec: `lib/ai/batchExecutor.ts` (not in src/) resolves
the symbolic id `"current"` to the actual id of the most recent matching
entity; per FIX_EXTEND_TRACK.md, "The `batchExecutor` resolves 'current' to
the actual clip ID" of "the most recent clip".  Clips are listed in creation
order, so the most recent one is the last element. -/
def resolveClipId (clips : List Clip) (clipId : String) : Option String :=
  if clipId == "current" then clips.getLast?.map Clip.id else some clipId

/-- Modelled from the spec: `lib/ai/dawController.ts` (not in src/) executes
`resizeClip` against the resolved clip id, mutating exactly the clip with
that id; the command fails (returns `none`) if no clip matches. -/
def execResizeClip (clips : List Clip) (clipId : String) (durationTick : Nat) :
    Option (List Clip) :=
  match resolveClipId clips clipId with
  | none => none
  | some rid =>
    if clips.any (fun c => c.id == rid) then
      some (clips.map (fun c =>
        if c.id == rid then { c with durationTick := durationTick } else c))
    else none

/-! ## Theorems -/

/-! ### Regex helper lemmas -/

/-- A nullable regex matches the empty prefix of anything. -/
theorem nullable_matchFrom {r : Re} (h : nullable r = true) :
    ∀ l, matchFrom r l = true := by
  intro l
  cases l <;> simp [matchFrom, h]

/-- A concatenation headed by the empty regex never matches a prefix. -/
theorem matchFrom_empCat (b : Re) : ∀ l, matchFrom (Re.cat Re.emp b) l = false
  | [] => by simp [matchFrom, nullable]
  | c :: cs => by
    simp only [matchFrom, nullable, rderiv, Bool.false_and, Bool.false_or,
      if_neg Bool.false_ne_true]
    exact matchFrom_empCat b cs

/-- The regex `\d+` matches a prefix of `c :: cs` exactly when `c` is a digit. -/
theorem matchFrom_digits (c : Char) (cs : List Char) :
    matchFrom digitsRe (c :: cs) = c.isDigit := by
  by_cases h : c.isDigit
  · simp only [matchFrom, digitsRe, rplus, nullable, rderiv, h, if_pos,
      Bool.false_and, Bool.false_or, if_neg Bool.false_ne_true]
    rw [nullable_matchFrom (by simp [nullable]) cs]
  · simp only [matchFrom, digitsRe, rplus, nullable, rderiv,
      Bool.false_and, Bool.false_or, if_neg Bool.false_ne_true]
    rw [if_neg (by simpa using h)]
    rw [matchFrom_empCat]
    simp [Bool.not_eq_true] at h
    simp [h]

/-- The digit test `/\d+/.test(l)` holds exactly when `l` has a digit. -/
theorem reTest_digits : ∀ l, reTest digitsRe l = l.any Char.isDigit
  | [] => by simp [reTest, matchFrom, digitsRe, rplus, nullable]
  | c :: cs => by
    rw [reTest, matchFrom_digits, reTest_digits cs]
    simp

/-- ASCII lower-casing leaves digits unchanged. -/
theorem jsToLower_digit {c : Char} (h : c.isDigit = true) : jsToLower c = c := by
  have key : ∀ u : Char, u.isDigit = false → (c == u) = false := by
    intro u hu
    rw [beq_eq_false_iff_ne]
    intro he
    rw [he, hu] at h
    cases h
  unfold jsToLower
  rw [key 'A' (by decide), key 'B' (by decide), key 'C' (by decide),
    key 'D' (by decide), key 'E' (by decide), key 'F' (by decide),
    key 'G' (by decide), key 'H' (by decide), key 'I' (by decide),
    key 'J' (by decide), key 'K' (by decide), key 'L' (by decide),
    key 'M' (by decide), key 'N' (by decide), key 'O' (by decide),
    key 'P' (by decide), key 'Q' (by decide), key 'R' (by decide),
    key 'S' (by decide), key 'T' (by decide), key 'U' (by decide),
    key 'V' (by decide), key 'W' (by decide), key 'X' (by decide),
    key 'Y' (by decide), key 'Z' (by decide)]
  simp

/-! ### Claims C1 and C9 -/

/-- C1: For every user input string, `classifyTask` terminates and returns one
of the three buckets `creative`, `technical` or `analytical` (it never returns
`fallback`), and `getModelForTask` maps `creative` to google/gemini-2.5-flash,
`technical` to openai/gpt-4o and `analytical` to
anthropic/claude-sonnet-4-20250514. -/
theorem classifyTask_buckets_and_model_routing (s : String) :
    (classifyTask s = .creative ∨ classifyTask s = .technical ∨
      classifyTask s = .analytical) ∧
    classifyTask s ≠ .fallback ∧
    getModelForTask .creative = ⟨"google", "gemini-2.5-flash",
      "Google Gemini 2.5 Flash - Creative & musical tasks"⟩ ∧
    getModelForTask .technical = ⟨"openai", "gpt-4o",
      "OpenAI GPT-4o - Technical & precise tasks"⟩ ∧
    getModelForTask .analytical = ⟨"anthropic", "claude-sonnet-4-20250514",
      "Anthropic Claude Sonnet 4 - Analysis & explanations"⟩ := by
  have shape : ∀ (c1 c2 c3 c4 c5 : Bool) (c6 : Prop) [Decidable c6],
      ((if c1 then TaskType.technical
        else if c2 then TaskType.analytical
        else if c3 then TaskType.creative
        else if c4 then TaskType.technical
        else if c5 then TaskType.technical
        else if c6 then TaskType.technical
        else TaskType.creative) = TaskType.creative ∨
       (if c1 then TaskType.technical
        else if c2 then TaskType.analytical
        else if c3 then TaskType.creative
        else if c4 then TaskType.technical
        else if c5 then TaskType.technical
        else if c6 then TaskType.technical
        else TaskType.creative) = TaskType.technical ∨
       (if c1 then TaskType.technical
        else if c2 then TaskType.analytical
        else if c3 then TaskType.creative
        else if c4 then TaskType.technical
        else if c5 then TaskType.technical
        else if c6 then TaskType.technical
        else TaskType.creative) = TaskType.analytical) ∧
      (if c1 then TaskType.technical
       else if c2 then TaskType.analytical
       else if c3 then TaskType.creative
       else if c4 then TaskType.technical
       else if c5 then TaskType.technical
       else if c6 then TaskType.technical
       else TaskType.creative) ≠ TaskType.fallback := by
    intro c1 c2 c3 c4 c5 c6 _
    by_cases h6 : c6 <;> cases c1 <;> cases c2 <;> cases c3 <;> cases c4 <;>
      cases c5 <;> simp [h6]
  have inst := shape (reTest digitsRe (jsLower s))
    (analyticalPatterns.any fun p => p (jsLower s))
    (creativePatterns.any fun p => p (jsLower s))
    (technicalPatterns.any fun p => p (jsLower s))
    (reTest digitsRe (jsLower s) && reTest paramWordsRe (jsLower s))
    ((jsLower s).count ' ' + 1 ≤ 3)
  exact ⟨inst.1, inst.2, rfl, rfl, rfl⟩

/-- C9: Every input containing a decimal digit is classified `technical`,
regardless of any creative or analytical keywords, because the digit check
precedes every pattern list. -/
theorem classifyTask_digit_technical (s : String)
    (h : s.toList.any Char.isDigit = true) :
    classifyTask s = .technical := by
  have hl : reTest digitsRe (jsLower s) = true := by
    rw [reTest_digits]
    obtain ⟨x, hx, hdx⟩ := List.any_eq_true.mp h
    exact List.any_eq_true.mpr
      ⟨jsToLower x, List.mem_map_of_mem _ hx, by rw [jsToLower_digit hdx]; exact hdx⟩
  unfold classifyTask
  simp [hl]

/-- Witness for C9: "make a trap beat at 140 bpm" contains a digit and is
classified `technical` (not `creative`). -/
theorem classifyTask_digit_technical_witness :
    ("make a trap beat at 140 bpm".toList.any Char.isDigit = true) ∧
    classifyTask "make a trap beat at 140 bpm" = .technical :=
  ⟨by decide, classifyTask_digit_technical _ (by decide)⟩

/-! ### Claim C2: retry policy of `sendToModel` -/

/-- The `after` adds one attempt. -/
theorem RetryResult.attempts_after {α} (ms : Nat) (r : RetryResult α) :
    (r.after ms).attempts = r.attempts + 1 := by
  cases r <;> rfl

/-- The `after` prepends one sleep. -/
theorem RetryResult.sleeps_after {α} (ms : Nat) (r : RetryResult α) :
    (r.after ms).sleeps = ms :: r.sleeps := by
  cases r <;> rfl

/-- The loop makes at most as many attempts as remain. -/
theorem retryGo_attempts_le {α} (outcomes : Nat → AttemptOutcome α) :
    ∀ n a, (retryGo outcomes a n).attempts ≤ n
  | 0, a => by simp [retryGo, RetryResult.attempts]
  | n + 1, a => by
    unfold retryGo
    cases houtcome : outcomes a with
    | ok v => simp [RetryResult.attempts]
    | fail e =>
      by_cases h1 : (sContains e "401" || sContains e "403") = true
      · simp [h1, RetryResult.attempts]
      · by_cases h2 : sContains e "429" = true
        · simp [h1, h2, RetryResult.attempts]
        · by_cases h3 : n = 0
          · simp [h1, h2, h3, RetryResult.attempts]
          · simp only [h1, h2, h3, if_neg, Bool.false_eq_true, if_false,
              RetryResult.attempts_after]
            have := retryGo_attempts_le outcomes n (a + 1)
            omega

/-- The loop makes at least one attempt when any remain. -/
theorem retryGo_attempts_pos {α} (outcomes : Nat → AttemptOutcome α) :
    ∀ n a, 1 ≤ (retryGo outcomes a (n + 1)).attempts := by
  intro n a
  unfold retryGo
  cases houtcome : outcomes a with
  | ok v => simp [RetryResult.attempts]
  | fail e =>
    by_cases h1 : (sContains e "401" || sContains e "403") = true
    · simp [h1, RetryResult.attempts]
    · by_cases h2 : sContains e "429" = true
      · simp [h1, h2, RetryResult.attempts]
      · by_cases h3 : n = 0
        · simp [h1, h2, h3, RetryResult.attempts]
        · simp [h1, h2, h3, RetryResult.attempts_after]

/-- Shape of the recorded sleeps: before retry `i + 1` (0-based attempt `i`
failed retryably) the loop sleeps `RETRY_DELAY_MS * (a + i + 1)` ms. -/
theorem retryGo_sleeps {α} (outcomes : Nat → AttemptOutcome α) :
    ∀ n a, (retryGo outcomes a n).sleeps =
      (List.range ((retryGo outcomes a n).attempts - 1)).map
        (fun i => RETRY_DELAY_MS * (a + i + 1))
  | 0, a => by simp [retryGo, RetryResult.attempts, RetryResult.sleeps]
  | n + 1, a => by
    unfold retryGo
    cases houtcome : outcomes a with
    | ok v => simp [RetryResult.attempts, RetryResult.sleeps]
    | fail e =>
      by_cases h1 : (sContains e "401" || sContains e "403") = true
      · simp [h1, RetryResult.attempts, RetryResult.sleeps]
      · by_cases h2 : sContains e "429" = true
        · simp [h1, h2, RetryResult.attempts, RetryResult.sleeps]
        · by_cases h3 : n = 0
          · simp [h1, h2, h3, RetryResult.attempts, RetryResult.sleeps]
          · simp only [h1, h2, h3, if_neg, Bool.false_eq_true, if_false,
              RetryResult.attempts_after, RetryResult.sleeps_after,
              Nat.add_sub_cancel]
            obtain ⟨m, hm⟩ : ∃ m, (retryGo outcomes (a + 1) n).attempts = m + 1 := by
              obtain ⟨n', hn'⟩ : ∃ n', n = n' + 1 :=
                ⟨n - 1, by omega⟩
              have := retryGo_attempts_pos outcomes n' (a + 1)
              rw [hn']
              exact ⟨(retryGo outcomes (a + 1) (n' + 1)).attempts - 1, by omega⟩
            rw [retryGo_sleeps outcomes n (a + 1), hm]
            rw [List.range_succ_eq_map]
            simp only [List.map_cons, List.map_map, Nat.add_sub_cancel,
              List.cons.injEq]
            refine ⟨by ring, ?_⟩
            apply List.map_congr_left
            intro i _
            simp only [Function.comp, Nat.succ_eq_add_one]
            ring

/-- C2: In non-mock mode `sendToModel` retries a failed attempt at most
`MAX_RETRIES = 2` additional times (3 attempts total), sleeping
`RETRY_DELAY_MS * (attempt + 1)` ms before each retry; a caught error whose
message contains `401` or `403` immediately throws
`Invalid Backboard API key`, and one containing `429` immediately throws
`Rate limit exceeded. Please try again later.`, with no further attempts or
sleeps in either case. -/
theorem sendToModel_retry_policy {α : Type} (outcomes : Nat → AttemptOutcome α) :
    (retryLoop outcomes).attempts ≤ MAX_RETRIES + 1 ∧
    (retryLoop outcomes).sleeps =
      (List.range ((retryLoop outcomes).attempts - 1)).map
        (fun i => RETRY_DELAY_MS * (i + 1)) ∧
    (∀ a n e, outcomes a = .fail e →
      (sContains e "401" = true ∨ sContains e "403" = true) →
      retryGo outcomes a (n + 1) = .fatal "Invalid Backboard API key" 1 []) ∧
    (∀ a n e, outcomes a = .fail e →
      sContains e "401" = false → sContains e "403" = false →
      sContains e "429" = true →
      retryGo outcomes a (n + 1) =
        .fatal "Rate limit exceeded. Please try again later." 1 []) := by
  refine ⟨retryGo_attempts_le outcomes (MAX_RETRIES + 1) 0, ?_, ?_, ?_⟩
  · have := retryGo_sleeps outcomes (MAX_RETRIES + 1) 0
    simpa using this
  · intro a n e hout hcond
    unfold retryGo
    rw [hout]
    have : (sContains e "401" || sContains e "403") = true := by
      rcases hcond with h | h <;> simp [h]
    simp [this]
  · intro a n e hout h1 h2 h3
    unfold retryGo
    rw [hout]
    simp [h1, h2, h3]

/-- Witness for C2: with every attempt failing with a 401 message the loop
throws the API-key error after one attempt and no sleeps; likewise for 429
and the rate-limit error. -/
theorem sendToModel_retry_policy_witness :
    retryLoop (fun _ => AttemptOutcome.fail "Request failed with status 401") =
      (RetryResult.fatal "Invalid Backboard API key" 1 [] : RetryResult Unit) ∧
    retryLoop (fun _ => AttemptOutcome.fail "Request failed with status 429") =
      (RetryResult.fatal "Rate limit exceeded. Please try again later." 1 []
        : RetryResult Unit) :=
  ⟨(sendToModel_retry_policy _).2.2.1 0 2 _ rfl (Or.inl (by decide)),
   (sendToModel_retry_policy _).2.2.2 0 2 _ rfl (by decide) (by decide) (by decide)⟩

/-! ### Claim C3: unparsable model content -/

/-- C3: When the model's response content, after stripping markdown code
fences, is not valid JSON, `sendToModel` does not throw: it returns a
`__batch__` response whose actions array contains exactly one action named
`unknown` carrying the original user text and the raw unparsed (fence
stripped) response in its parameters.  `jsonParse` models the platform's
`JSON.parse`; `none` is a parse failure. -/
theorem sendToModel_unparsable_json_fallback
    (jsonParse : String → Option JsVal) (text rawContent : String)
    (h : jsonParse (stripFences rawContent) = none) :
    handleModelContent jsonParse text rawContent =
      { action := "__batch__",
        parameters := .obj [("actions", .arr [
          .obj [("action", .str "unknown"),
                ("parameters", .obj [("originalText", .str text),
                  ("reason", .str "Failed to parse AI response"),
                  ("rawResponse", .str (stripFences rawContent))])]])],
        confidence := .undefined,
        reasoning := .undefined } := by
  unfold handleModelContent
  simp only [h]
  rfl

/-- Witness for C3 with a parser that rejects the concrete non-JSON content
`I cannot help with that.`. -/
theorem sendToModel_unparsable_json_fallback_witness :
    handleModelContent (fun _ => none) "extend the track" "I cannot help with that." =
      { action := "__batch__",
        parameters := .obj [("actions", .arr [
          .obj [("action", .str "unknown"),
                ("parameters", .obj [("originalText", .str "extend the track"),
                  ("reason", .str "Failed to parse AI response"),
                  ("rawResponse",
                   .str (stripFences "I cannot help with that."))])]])],
        confidence := .undefined,
        reasoning := .undefined } :=
  sendToModel_unparsable_json_fallback (fun _ => none) "extend the track"
    "I cannot help with that." rfl

/-! ### Claim C4: batch error status in ChatPanel -/

/-- C4: When a batch result has `success = false`, `handleSend` adds the
agent message with status `error` exactly when `successCount` is 0, and with
status `sent` whenever at least one action succeeded (partial success). -/
theorem chatPanel_batch_error_status (r : BatchResult)
    (h : r.success = false) :
    (batchAgentStatus r = .error ↔ r.successCount = 0) ∧
    (0 < r.successCount → batchAgentStatus r = .sent) := by
  unfold batchAgentStatus
  rw [h]
  constructor
  · by_cases hc : 0 < r.successCount <;> simp [hc] <;> omega
  · intro hc
    simp [hc]

/-- Witness for C4: a failed batch with one success is reported `sent`, a
failed batch with zero successes is reported `error`. -/
theorem chatPanel_batch_error_status_witness :
    batchAgentStatus ⟨false, "1/2 actions failed", 1, none⟩ = .sent ∧
    batchAgentStatus ⟨false, "all actions failed", 0, none⟩ = .error :=
  ⟨(chatPanel_batch_error_status ⟨false, "1/2 actions failed", 1, none⟩ rfl).2
      (by decide),
   (chatPanel_batch_error_status ⟨false, "all actions failed", 0, none⟩ rfl).1.mpr
      rfl⟩

/-! ### Claim C5: recording the last AI command for undo -/

/-- C5: After a successful batch execution `handleSend` records the batch's
`undoGroupId` (when present) via `chat.setLastCommand`, and after a
successful single-command execution it records `result.data.commandId`, so
`undoLastAIAction` can target the grouped AI action; on a failed single
command no command id is recorded. -/
theorem chatPanel_undo_command_recording (prev : Option String) :
    (∀ (r : BatchResult) (g : String), r.success = true →
      r.undoGroupId = some g → g ≠ "" →
      batchLastCommand prev r = some g) ∧
    (∀ (r : CommandResult) (c : String), r.success = true →
      r.commandId = some c → c ≠ "" →
      singleLastCommand prev r = some c) ∧
    (∀ r : CommandResult, r.success = false →
      singleLastCommand prev r = prev) := by
  refine ⟨?_, ?_, ?_⟩
  · intro r g hs hg hne
    unfold batchLastCommand
    rw [hs, hg]
    simp [jsTruthyOpt, hne]
  · intro r c hs hc hne
    unfold singleLastCommand
    rw [hs, hc]
    simp [jsTruthyOpt, hne]
  · intro r hs
    unfold singleLastCommand
    rw [hs]
    simp

/-- Witness for C5 at concrete results: a successful batch records its group
id, a successful single command records its command id, a failed single
command leaves the previous value. -/
theorem chatPanel_undo_command_recording_witness :
    batchLastCommand none ⟨true, "ok", 3, some "undo-group-7"⟩ =
      some "undo-group-7" ∧
    singleLastCommand none ⟨true, "ok", some "cmd-42"⟩ = some "cmd-42" ∧
    singleLastCommand (some "cmd-41") ⟨false, "boom", some "cmd-42"⟩ =
      some "cmd-41" :=
  ⟨(chatPanel_undo_command_recording none).1 _ _ rfl rfl (by decide),
   (chatPanel_undo_command_recording none).2.1 _ _ rfl rfl (by decide),
   (chatPanel_undo_command_recording (some "cmd-41")).2.2 _ rfl⟩

/-! ### Claim C6: assistant/thread cache invariant -/

/-- C6: `getAssistant` returns the cached assistant id without an SDK call
when `hashContext(systemPrompt)` equals the cached hash; when the hash
differs it clears both `cachedAssistantId` and `cachedThreadId` before
creating a new assistant; and afterwards a cached thread id only exists
alongside a cached assistant id whose context hash matches the current
system prompt. -/
theorem getAssistant_cache_invariant (newId systemPrompt : String)
    (st : BackboardCache) :
    (∀ a, st.cachedAssistantId = some a → a ≠ "" →
      st.cachedContextHash = some (hashContext systemPrompt) →
      getAssistantModel newId systemPrompt st = ⟨a, st, 0⟩) ∧
    (∀ a, st.cachedAssistantId = some a → a ≠ "" →
      st.cachedContextHash ≠ some (hashContext systemPrompt) →
      getAssistantModel newId systemPrompt st =
        ⟨newId, ⟨some newId, none, some (hashContext systemPrompt)⟩, 1⟩) ∧
    ((getAssistantModel newId systemPrompt st).cache.cachedThreadId ≠ none →
      (getAssistantModel newId systemPrompt st).cache.cachedAssistantId ≠ none ∧
      (getAssistantModel newId systemPrompt st).cache.cachedContextHash =
        some (hashContext systemPrompt)) := by
  refine ⟨?_, ?_, ?_⟩
  · intro a ha hne hh
    simp [getAssistantModel, jsTruthyOpt, ha, hh, hne]
  · intro a ha hne hh
    simp [getAssistantModel, jsTruthyOpt, ha, hne, hh]
  · rcases hid : st.cachedAssistantId with _ | a
    · simp [getAssistantModel, jsTruthyOpt, hid]
    · by_cases hne : a = ""
      · simp [getAssistantModel, jsTruthyOpt, hid, hne]
      · by_cases hh : st.cachedContextHash = some (hashContext systemPrompt)
        · simp [getAssistantModel, jsTruthyOpt, hid, hne, hh]
        · simp [getAssistantModel, jsTruthyOpt, hid, hne, hh]

/-- Witness for C6: a cache holding assistant `asst-1`, thread `thr-1` and
the hash of prompt `old context` is reused untouched for `old context` with
no SDK call, and fully invalidated then repopulated for `new context`. -/
theorem getAssistant_cache_invariant_witness :
    getAssistantModel "asst-2" "old context"
      ⟨some "asst-1", some "thr-1", some (hashContext "old context")⟩ =
      ⟨"asst-1", ⟨some "asst-1", some "thr-1", some (hashContext "old context")⟩, 0⟩ ∧
    getAssistantModel "asst-2" "new context"
      ⟨some "asst-1", some "thr-1", some (hashContext "old context")⟩ =
      ⟨"asst-2", ⟨some "asst-2", none, some (hashContext "new context")⟩, 1⟩ :=
  ⟨(getAssistant_cache_invariant "asst-2" "old context"
      ⟨some "asst-1", some "thr-1", some (hashContext "old context")⟩).1
      "asst-1" rfl (by decide) rfl,
   (getAssistant_cache_invariant "asst-2" "new context"
      ⟨some "asst-1", some "thr-1", some (hashContext "old context")⟩).2.1
      "asst-1" rfl (by decide) (by decide)⟩

/-! ### Claim C7 (corrected): system prompt plumbing -/

set_option maxRecDepth 8192 in
/-- Counterexample to C7 as stated: calling `sendToModel` with the empty
string as `systemPrompt` argument still substitutes `DEFAULT_SYSTEM_PROMPT`
(JS `||` treats `''` as falsy), so the default is not used only when no
argument is given. -/
theorem effectiveSystemPrompt_empty_counterexample :
    effectiveSystemPrompt (some "") = DEFAULT_SYSTEM_PROMPT ∧
    (some "" : Option String) ≠ none ∧
    DEFAULT_SYSTEM_PROMPT ≠ "" := by
  refine ⟨rfl, by simp, ?_⟩
  decide

/-- C7 (amended): Every chat request built by `handleSend` carries a
`systemPrompt` generated from the live project state via `buildDAWContext`
and `generateSystemPrompt` at send time, and `sendToModel` uses the provided
system prompt, substituting `DEFAULT_SYSTEM_PROMPT` only when the
`systemPrompt` argument is missing or the empty string. -/
theorem chatRequest_systemPrompt_amended :
    (∀ (project : ProjectState) (library : SampleLibrary)
        (userMessage selectedModel : String) (messages : List (String × String)),
      (buildChatRequest project library userMessage selectedModel messages).systemPrompt =
        generateSystemPrompt (buildDAWContext project library)) ∧
    effectiveSystemPrompt none = DEFAULT_SYSTEM_PROMPT ∧
    effectiveSystemPrompt (some "") = DEFAULT_SYSTEM_PROMPT ∧
    (∀ s : String, s ≠ "" → effectiveSystemPrompt (some s) = s) := by
  refine ⟨fun _ _ _ _ _ => rfl, rfl, rfl, ?_⟩
  intro s hs
  unfold effectiveSystemPrompt
  have : (s == "") = false := by rwa [beq_eq_false_iff_ne]
  simp [this]

/-- Witness for C7 (amended) at a concrete non-empty generated prompt. -/
theorem chatRequest_systemPrompt_amended_witness :
    (buildChatRequest ⟨120, ["Kick Pattern"]⟩ ⟨["drums/kick"]⟩
        "extend the track" "gemini" []).systemPrompt =
      generateSystemPrompt (buildDAWContext ⟨120, ["Kick Pattern"]⟩ ⟨["drums/kick"]⟩) ∧
    effectiveSystemPrompt
        (some (generateSystemPrompt
          (buildDAWContext ⟨120, ["Kick Pattern"]⟩ ⟨["drums/kick"]⟩))) =
      generateSystemPrompt (buildDAWContext ⟨120, ["Kick Pattern"]⟩ ⟨["drums/kick"]⟩) :=
  ⟨chatRequest_systemPrompt_amended.1 _ _ _ _ _,
   chatRequest_systemPrompt_amended.2.2.2 _ (by decide)⟩

/-! ### Claim C8: symbolic `current` id resolution (spec-modelled) -/

/-- C8: A command referencing an entity with the symbolic id `current` (for
example `resizeClip` with `clipId: "current"`) is resolved to the actual id
of the most recent matching entity before the DAW mutation is executed: with
clips listed in creation order, `current` resolves to the last clip's id and
the executed resize mutates exactly that clip. -/
theorem resolveCurrentClip_resolution (cs : List Clip) (c : Clip) (d : Nat) :
    resolveClipId (cs ++ [c]) "current" = some c.id ∧
    execResizeClip (cs ++ [c]) "current" d =
      some ((cs ++ [c]).map (fun x =>
        if x.id == c.id then { x with durationTick := d } else x)) := by
  have h1 : resolveClipId (cs ++ [c]) "current" = some c.id := by
    unfold resolveClipId
    simp
  refine ⟨h1, ?_⟩
  unfold execResizeClip
  rw [h1]
  have h2 : (cs ++ [c]).any (fun x => x.id == c.id) = true := by
    simp [List.any_append]
  simp [h2]

/-! ### Claim C10: old mock vs. new mock refinement -/

/-- C10: For every input text that matches neither of the newer mock's two
added branches (ghost preview, make-a-beat), the newer
`mockBackboardResponse` returns a `__batch__` response wrapping exactly one
action whose name equals the action field the older `mockBackboardResponse`
returns for the same input; on every branch except the default
`clarificationNeeded` branch the wrapped action's parameters are equal too. -/
theorem mockBackboard_batch_refinement (text model : String)
    (systemPrompt : Option String)
    (h0a : condSuggest text = false) (h0b : condBeat text = false) :
    ∃ name params,
      (mockBackboardResponseNew text model systemPrompt).action = "__batch__" ∧
      (mockBackboardResponseNew text model systemPrompt).parameters =
        .obj [("actions",
          .arr [.obj [("action", .str name), ("parameters", params)]])] ∧
      name = (mockBackboardResponseOld text model).action ∧
      (name ≠ "clarificationNeeded" →
        params = (mockBackboardResponseOld text model).parameters) := by
  have ha : ¬(condSuggest text = true) := by simp [h0a]
  have hb : ¬(condBeat text = true) := by simp [h0b]
  by_cases h1 : condPattern text = true
  · refine ⟨"addPattern", mockPatternParams (jsLower text), ?_, ?_, ?_, ?_⟩ <;>
      simp [mockBackboardResponseNew, mockBackboardResponseOld, wrapInBatch,
        ha, hb, h1]
  by_cases h2 : condBpm text = true
  · refine ⟨"setBpm", .obj [("bpm", .num (mockBpm text))], ?_, ?_, ?_, ?_⟩ <;>
      simp [mockBackboardResponseNew, mockBackboardResponseOld, wrapInBatch,
        ha, hb, h1, h2]
  by_cases h3 : condPlay text = true
  · refine ⟨"play", .obj [], ?_, ?_, ?_, ?_⟩ <;>
      simp [mockBackboardResponseNew, mockBackboardResponseOld, wrapInBatch,
        ha, hb, h1, h2, h3]
  by_cases h4 : condStop text = true
  · refine ⟨"stop", .obj [], ?_, ?_, ?_, ?_⟩ <;>
      simp [mockBackboardResponseNew, mockBackboardResponseOld, wrapInBatch,
        ha, hb, h1, h2, h3, h4]
  by_cases h5 : condNote text = true
  · refine ⟨"addNote", mockNoteParams, ?_, ?_, ?_, ?_⟩ <;>
      simp [mockBackboardResponseNew, mockBackboardResponseOld, wrapInBatch,
        ha, hb, h1, h2, h3, h4, h5]
  · refine ⟨"clarificationNeeded",
      .obj [
        ("message", .str ("I understand you want to \"" ++ text ++
          "\", but I'm not sure how to help with that. Try commands like \"make a beat\", \"add a kick pattern\", \"set BPM to 128\", or \"play\".")),
        ("suggestedOptions", .arr [.str "Make a beat", .str "Add a pattern",
          .str "Set BPM", .str "Play/Stop"])], ?_, ?_, ?_, ?_⟩ <;>
      simp [mockBackboardResponseNew, mockBackboardResponseOld, wrapInBatch,
        ha, hb, h1, h2, h3, h4, h5]

/-- Witness for C10 at the concrete input `hello world` (which matches
neither added branch): the theorem's conclusion instantiated there. -/
theorem mockBackboard_batch_refinement_witness :
    ∃ name params,
      (mockBackboardResponseNew "hello world" "gemini" none).action = "__batch__" ∧
      (mockBackboardResponseNew "hello world" "gemini" none).parameters =
        .obj [("actions",
          .arr [.obj [("action", .str name), ("parameters", params)]])] ∧
      name = (mockBackboardResponseOld "hello world" "gemini").action ∧
      (name ≠ "clarificationNeeded" →
        params = (mockBackboardResponseOld "hello world" "gemini").parameters) :=
  mockBackboard_batch_refinement "hello world" "gemini" none (by decide) (by decide)
